import Mathlib

/-!
Shallow embedding of src/pages/assets/js/geogebra-loader.js (v1.1): the
environment detection (isLiveServer / isFileProtocol / basePath), the
loadGeoGebra promise-returning loader with its two polling phases, and the
embedGeoGebra iframe helper.  The asynchronous part of loadGeoGebra is
modelled as a deterministic small-step machine driven by a schedule: the
script element fires onload, onerror, or nothing, and each subsequent step
is one tick of whichever interval is currently installed (checkInterval in
Phase A, onLoaded in Phase B).  Every call to resolve or reject is recorded
in an ordered log, so settlement counts and settlement order are provable.
-/

namespace GeoGebraLoader

/-- Values the loader hands to resolve or reject: an Error object built from a
message string, the raw event object passed through by script.onerror, or the
applet instance found in the window registry. -/
inductive JsValue where
  | errorObj (msg : String)
  | eventObj (ev : String)
  | applet (inst : String)
deriving DecidableEq, Repr

/-- One call to the promise executor's resolve or reject. -/
inductive SettleOp where
  | resolve (v : JsValue)
  | reject (v : JsValue)
deriving DecidableEq, Repr

/-- Control state of one loadGeoGebra call: rejected during synchronous
validation, waiting for the script element's load or error event, polling for
window.GGBApplet (checkInterval, Phase A, counting elapsed ticks), polling for
the applet instance (onLoaded, Phase B), or finished. -/
inductive Phase where
  | rejectedEarly
  | awaitingScript
  | phaseA (k : Nat)
  | phaseB (j : Nat)
  | done
deriving DecidableEq, Repr

/-- The page state the loader reads and writes: which container elements
exist (document.getElementById on the mount id), each container's innerHTML,
and the ids of the script elements currently in the document, in insertion
order. -/
structure Dom where
  containers : List String
  containerHTML : String → Option String
  scripts : List String

/-- Assignment container.innerHTML = h for the container with id i. -/
def setHTML (dom : Dom) (i h : String) : Dom :=
  { dom with containerHTML := fun j => if j = i then some h else dom.containerHTML j }

/-- State of one loadGeoGebra call: the page, the ordered log of resolve and
reject calls made so far on this call's promise, and the control phase. -/
structure CallState where
  dom : Dom
  log : List SettleOp
  phase : Phase

/-- What the injected script element does: fires onload, fires onerror with
an event object, or never fires either. -/
inductive ScriptOutcome where
  | loads
  | fails (ev : String)
  | silent
deriving DecidableEq, Repr

/-- Schedule for the external world of one call.  ggbAt k is whether
window.GGBApplet is present at the k-th checkInterval tick (ticks numbered
from 1); ctorThrows is some msg when new GGBApplet(params, true) or
applet.inject throws an error with that message, none when construction
succeeds; instAt j is the value of window[containerId + "_applet"] at the
j-th onLoaded tick. -/
structure Env where
  scriptOutcome : ScriptOutcome
  ggbAt : Nat → Bool
  ctorThrows : Option String
  instAt : Nat → Option String

/-- Hostname check: window.location.hostname is localhost or 127.0.0.1. -/
def isLiveServer (hostname : String) : Bool :=
  hostname == "localhost" || hostname == "127.0.0.1"

/-- Protocol check: window.location.protocol is file:. -/
def isFileProtocol (protocol : String) : Bool :=
  protocol == "file:"

/-- Base path for .ggb files, chosen by the environment checks. -/
def basePath (hostname protocol : String) : String :=
  if isLiveServer hostname then "http://" ++ hostname ++ ":5500/assets/ggb/"
  else if isFileProtocol protocol then "./assets/ggb/"
  else "/assets/ggb/"

/-- The GeoGebra parameter object built by loadGeoGebra. -/
structure GGBParams where
  appName : String
  width : Nat
  height : Nat
  showToolBar : Bool
  showAlgebraInput : Bool
  showMenuBar : Bool
  enableRightClick : Bool
  enableShiftDragZoom : Bool
  showResetIcon : Bool
  useBrowserForJS : Bool
  filename : String
deriving DecidableEq, Repr

/-- The params literal of loadGeoGebra. -/
def mkParams (hostname protocol ggbFileName : String) (is3D : Bool) : GGBParams :=
  { appName := if is3D then "3d" else "classic"
    width := 800
    height := 500
    showToolBar := true
    showAlgebraInput := true
    showMenuBar := false
    enableRightClick := false
    enableShiftDragZoom := true
    showResetIcon := true
    useBrowserForJS := true
    filename := basePath hostname protocol ++ ggbFileName }

/-- The id given to the injected script element, keyed by is3D. -/
def scriptId (is3D : Bool) : String :=
  if is3D then "geogebra-3d-script" else "geogebra-script"

/-- The src of the injected script element. -/
def scriptSrc (is3D : Bool) : String :=
  if is3D then "https://www.geogebra.org/apps/latest/web3d.nocache.js"
  else "https://www.geogebra.org/apps/latest/web.nocache.js"

/-- The loading-animation template written to the container after
validation succeeds. -/
def loadingHTML (ggbFileName : String) : String :=
  "\n      <div class=\"flex items-center justify-center py-12 bg-blue-50 rounded-lg border-2 border-dashed border-blue-300\">\n        <div class=\"animate-spin rounded-full h-8 w-8 border-b-2 border-blue-600 mr-3\"></div>\n        <div>\n          <p class=\"text-gray-700 font-medium\">正在加载 GeoGebra 图形...</p>\n          <p class=\"text-sm text-gray-500\">文件名：" ++ ggbFileName ++ "</p>\n        </div>\n      </div>\n    "

/-- The diagnostic panel written to the container by script.onerror. -/
def errorHTML (ggbFileName fullPath : String) : String :=
  "\n        <div class=\"bg-red-50 border border-red-200 rounded-lg p-6 text-center\">\n          <i class=\"fas fa-exclamation-triangle text-4xl text-red-500 mb-4\"></i>\n          <h3 class=\"text-red-800 font-bold mb-2\">图形加载失败</h3>\n          <div class=\"text-sm text-red-700 text-left max-w-md mx-auto\">\n            <p class=\"mb-2\">请检查以下常见问题：</p>\n            <ul class=\"list-disc list-inside space-y-1\">\n              <li>文件名 <code class=\"bg-red-100 px-1 rounded\">" ++ ggbFileName ++ "</code> 是否正确</li>\n              <li>文件是否存在于 <code class=\"bg-red-100 px-1 rounded\">assets/ggb/</code> 目录</li>\n              <li>是否已启动 Live Server（VS Code插件）</li>\n              <li>浏览器是否允许加载外部脚本</li>\n            </ul>\n          </div>\n          <p class=\"mt-4 text-xs text-gray-600\">当前路径：" ++ fullPath ++ "</p>\n        </div>\n      "

/-- The filename check ggbFileName.endsWith(".ggb"), expressed as a suffix
test on the character sequence of the string. -/
def endsWithGgb (ggbFileName : String) : Bool :=
  ".ggb".data.isSuffixOf ggbFileName.data

/-- Message of the Error rejected when the container is missing. -/
def mountNotFoundMsg (containerId : String) : String :=
  "❌ 错误：找不到容器 #" ++ containerId

/-- Message of the Error rejected when the filename is empty or lacks the
.ggb extension. -/
def invalidNameMsg : String :=
  "❌ 错误：请提供正确的 .ggb 文件名"

/-- Message of the Error rejected when library construction throws. -/
def initFailedMsg (m : String) : String :=
  "❌ GeoGebra 初始化失败: " ++ m

/-- Synchronous body of loadGeoGebra up to document.head.appendChild(script):
container validation, filename validation, loading animation, removal of an
existing script element with the same id, and insertion of the new one. -/
def loadGeoGebraStart (containerId ggbFileName : String)
    (is3D : Bool) (dom : Dom) : CallState :=
  if ! dom.containers.contains containerId then
    { dom := dom
      log := [.reject (.errorObj (mountNotFoundMsg containerId))]
      phase := .rejectedEarly }
  else if ggbFileName == "" || ! endsWithGgb ggbFileName then
    { dom := dom
      log := [.reject (.errorObj invalidNameMsg)]
      phase := .rejectedEarly }
  else
    let dom1 := setHTML dom containerId (loadingHTML ggbFileName)
    let sid := scriptId is3D
    let dom2 :=
      if dom1.scripts.contains sid then { dom1 with scripts := dom1.scripts.erase sid }
      else dom1
    let dom3 := { dom2 with scripts := dom2.scripts ++ [sid] }
    { dom := dom3, log := [], phase := .awaitingScript }

/-- The script element's single load or error event.  onload installs
checkInterval (Phase A); onerror writes the diagnostic panel into the
container and rejects with the raw event. -/
def onScriptEvent (hostname protocol containerId ggbFileName : String)
    (outcome : ScriptOutcome) (s : CallState) : CallState :=
  match s.phase, outcome with
  | .awaitingScript, .loads => { s with phase := .phaseA 0 }
  | .awaitingScript, .fails ev =>
      { dom := setHTML s.dom containerId
          (errorHTML ggbFileName (basePath hostname protocol ++ ggbFileName))
        log := s.log ++ [.reject (.eventObj ev)]
        phase := .done }
  | _, _ => s

/-- One tick of the currently installed interval.  In Phase A (checkInterval):
if window.GGBApplet is present, clearInterval, construct and inject the
applet — rejecting with InitializationFailed if that throws, otherwise
installing onLoaded (Phase B).  In Phase B (onLoaded): if the instance is
present in the window registry, clearInterval and resolve with it. -/
def stepTick (env : Env) (s : CallState) : CallState :=
  match s.phase with
  | .phaseA k =>
      if env.ggbAt (k + 1) then
        match env.ctorThrows with
        | some m =>
            { s with log := s.log ++ [.reject (.errorObj (initFailedMsg m))]
                     phase := .done }
        | none => { s with phase := .phaseB 0 }
      else { s with phase := .phaseA (k + 1) }
  | .phaseB j =>
      match env.instAt (j + 1) with
      | some v =>
          { s with log := s.log ++ [.resolve (.applet v)], phase := .done }
      | none => { s with phase := .phaseB (j + 1) }
  | _ => s

/-- Iterate n ticks. -/
def ticks (env : Env) (s : CallState) : Nat → CallState
  | 0 => s
  | n + 1 => stepTick env (ticks env s n)

/-- Full observable history of one loadGeoGebra call: the synchronous body,
then the script element's event (if any), then n interval ticks. -/
def run (hostname protocol containerId ggbFileName : String) (is3D : Bool)
    (env : Env) (dom : Dom) (n : Nat) : CallState :=
  ticks env
    (onScriptEvent hostname protocol containerId ggbFileName env.scriptOutcome
      (loadGeoGebraStart containerId ggbFileName is3D dom)) n

/-- Border style string in embedGeoGebra. -/
def borderStyle (showBorder : Bool) : String :=
  if showBorder then "border: 1px solid #e2e8f0; border-radius: 8px;"
  else "border: none; border-radius: 8px;"

/-- The iframe template written to the container by embedGeoGebra. -/
def embedHTML (materialId : String) (width height : Nat) (showBorder : Bool) : String :=
  "\n    <div>\n      <p class=\"text-sm text-gray-600 mb-2\">材料ID：<code class=\"bg-gray-100 px-1 rounded\">" ++ materialId ++ "</code></p>\n      <iframe src=\"https://www.geogebra.org/material/iframe/id/" ++ materialId ++ "/width/" ++ toString width ++ "/height/" ++ toString height ++ "\" \n              width=\"" ++ toString width ++ "\" \n              height=\"" ++ toString height ++ "\" \n              frameborder=\"0\" \n              style=\"" ++ borderStyle showBorder ++ " box-shadow: 0 4px 6px rgba(0, 0, 0, 0.1);\"\n              allowfullscreen>\n      </iframe>\n      <p class=\"text-sm text-gray-500 mt-2\">\n        <i class=\"fas fa-info-circle mr-1\"></i> 拖动滑块或图形进行交互，点击右下角可全屏查看\n      </p>\n    </div>\n  "

/-- The embedGeoGebra helper: returns unchanged when the container is missing
or materialId is falsy, otherwise replaces the container's contents with the
iframe template. -/
def embedGeoGebra (containerId materialId : String) (width height : Nat)
    (showBorder : Bool) (dom : Dom) : Dom :=
  if ! dom.containers.contains containerId then dom
  else if materialId == "" then dom
  else setHTML dom containerId (embedHTML materialId width height showBorder)

/-! Basic lemmas about the tick machine. -/

/-- Phases in which an interval timer is installed. -/
def activePolling : Phase → Bool
  | .phaseA _ => true
  | .phaseB _ => true
  | _ => false

theorem ticks_add (env : Env) (s : CallState) (a b : Nat) :
    ticks env s (a + b) = ticks env (ticks env s a) b := by
  induction b with
  | zero => rfl
  | succ b ih =>
      show stepTick env (ticks env s (a + b)) = stepTick env (ticks env (ticks env s a) b)
      rw [ih]

theorem stepTick_frozen (env : Env) (s : CallState) (h : activePolling s.phase = false) :
    stepTick env s = s := by
  obtain ⟨dom, log, phase⟩ := s
  cases phase <;> simp_all [activePolling, stepTick]

theorem ticks_frozen (env : Env) (s : CallState) (n : Nat)
    (h : activePolling s.phase = false) : ticks env s n = s := by
  induction n with
  | zero => rfl
  | succ n ih =>
      show stepTick env (ticks env s n) = s
      rw [ih, stepTick_frozen env s h]

theorem stepTick_dom (env : Env) (s : CallState) : (stepTick env s).dom = s.dom := by
  obtain ⟨dom, log, phase⟩ := s
  cases phase with
  | phaseA k =>
      simp only [stepTick]
      cases hg : env.ggbAt (k + 1) with
      | false => simp [hg]
      | true => cases hc : env.ctorThrows <;> simp [hg, hc]
  | phaseB j =>
      simp only [stepTick]
      cases hc : env.instAt (j + 1) <;> simp [hc]
  | rejectedEarly => rfl
  | awaitingScript => rfl
  | done => rfl

theorem ticks_dom (env : Env) (s : CallState) (n : Nat) :
    (ticks env s n).dom = s.dom := by
  induction n with
  | zero => rfl
  | succ n ih =>
      show (stepTick env (ticks env s n)).dom = s.dom
      rw [stepTick_dom, ih]

theorem onScriptEvent_scripts (hostname protocol containerId ggbFileName : String)
    (o : ScriptOutcome) (s : CallState) :
    (onScriptEvent hostname protocol containerId ggbFileName o s).dom.scripts
      = s.dom.scripts := by
  obtain ⟨dom, log, phase⟩ := s
  cases phase <;> cases o <;> simp [onScriptEvent, setHTML]

theorem onScriptEvent_containers (hostname protocol containerId ggbFileName : String)
    (o : ScriptOutcome) (s : CallState) :
    (onScriptEvent hostname protocol containerId ggbFileName o s).dom.containers
      = s.dom.containers := by
  obtain ⟨dom, log, phase⟩ := s
  cases phase <;> cases o <;> simp [onScriptEvent, setHTML]

theorem endsWithGgb_ne_empty (ggbFileName : String)
    (h : endsWithGgb ggbFileName = true) : (ggbFileName == "") = false := by
  cases he : ggbFileName == "" with
  | false => rfl
  | true =>
      have : ggbFileName = "" := by simpa using he
      subst this
      exact absurd h (by decide)

theorem start_of_no_container (containerId ggbFileName : String) (is3D : Bool) (dom : Dom)
    (h : dom.containers.contains containerId = false) :
    loadGeoGebraStart containerId ggbFileName is3D dom =
      { dom := dom
        log := [SettleOp.reject (JsValue.errorObj (mountNotFoundMsg containerId))]
        phase := Phase.rejectedEarly } := by
  have h' : containerId ∉ dom.containers := by simpa using h
  simp [loadGeoGebraStart, h']

theorem start_of_bad_name (containerId ggbFileName : String) (is3D : Bool) (dom : Dom)
    (h1 : dom.containers.contains containerId = true)
    (h2 : endsWithGgb ggbFileName = false) :
    loadGeoGebraStart containerId ggbFileName is3D dom =
      { dom := dom
        log := [SettleOp.reject (JsValue.errorObj invalidNameMsg)]
        phase := Phase.rejectedEarly } := by
  have h1' : containerId ∈ dom.containers := by simpa using h1
  simp [loadGeoGebraStart, h1', h2]

theorem start_valid (containerId ggbFileName : String) (is3D : Bool) (dom : Dom)
    (h1 : dom.containers.contains containerId = true)
    (h2 : endsWithGgb ggbFileName = true) :
    loadGeoGebraStart containerId ggbFileName is3D dom =
      { dom :=
          { containers := dom.containers
            containerHTML := fun j =>
              if j = containerId then some (loadingHTML ggbFileName)
              else dom.containerHTML j
            scripts :=
              (if scriptId is3D ∈ dom.scripts then
                dom.scripts.erase (scriptId is3D)
              else dom.scripts) ++ [scriptId is3D] }
        log := []
        phase := Phase.awaitingScript } := by
  have h1' : containerId ∈ dom.containers := by simpa using h1
  have h3 : ¬ ggbFileName = "" := by
    simpa using endsWithGgb_ne_empty ggbFileName h2
  by_cases hs : scriptId is3D ∈ dom.scripts <;>
    simp [loadGeoGebraStart, h1', h2, h3, hs, setHTML]

/-- Settlement invariant: either no resolve or reject has been issued and the
call may still be in flight, or exactly one has been issued and the call is
finished (early rejection or done). -/
def Inv (s : CallState) : Prop :=
  s.log = [] ∨ (s.log.length = 1 ∧ (s.phase = Phase.rejectedEarly ∨ s.phase = Phase.done))

theorem inv_stepTick (env : Env) (s : CallState) (h : Inv s) : Inv (stepTick env s) := by
  obtain ⟨dom, log, phase⟩ := s
  cases phase with
  | phaseA k =>
      have hlog : log = [] := by
        rcases h with h | ⟨_, h2 | h2⟩ <;> simp_all
      subst hlog
      simp only [stepTick]
      cases hg : env.ggbAt (k + 1) with
      | false => simp [Inv, hg]
      | true =>
          cases hc : env.ctorThrows with
          | none => simp [Inv, hg, hc]
          | some m => simp [Inv, hg, hc]
  | phaseB j =>
      have hlog : log = [] := by
        rcases h with h | ⟨_, h2 | h2⟩ <;> simp_all
      subst hlog
      simp only [stepTick]
      cases hc : env.instAt (j + 1) with
      | none => simp [Inv, hc]
      | some v => simp [Inv, hc]
  | rejectedEarly => exact h
  | awaitingScript => exact h
  | done => exact h

theorem inv_onScriptEvent (hostname protocol containerId ggbFileName : String)
    (o : ScriptOutcome) (s : CallState) (h : Inv s) :
    Inv (onScriptEvent hostname protocol containerId ggbFileName o s) := by
  obtain ⟨dom, log, phase⟩ := s
  cases phase <;> cases o <;> try exact h
  · have hlog : log = [] := by
      rcases h with h | ⟨_, h2 | h2⟩ <;> simp_all
    subst hlog
    simp [Inv, onScriptEvent]
  · have hlog : log = [] := by
      rcases h with h | ⟨_, h2 | h2⟩ <;> simp_all
    subst hlog
    simp [Inv, onScriptEvent]

theorem inv_start (containerId ggbFileName : String) (is3D : Bool) (dom : Dom) :
    Inv (loadGeoGebraStart containerId ggbFileName is3D dom) := by
  by_cases h1 : containerId ∈ dom.containers
  · by_cases h2 : ggbFileName = ""
    · simp [loadGeoGebraStart, h1, h2, Inv]
    · by_cases h3 : endsWithGgb ggbFileName = true
      · simp [loadGeoGebraStart, h1, h2, h3, Inv]
      · simp only [Bool.not_eq_true] at h3
        simp [loadGeoGebraStart, h1, h2, h3, Inv]
  · simp [loadGeoGebraStart, h1, Inv]

theorem inv_run (hostname protocol containerId ggbFileName : String) (is3D : Bool)
    (env : Env) (dom : Dom) (n : Nat) :
    Inv (run hostname protocol containerId ggbFileName is3D env dom n) := by
  induction n with
  | zero =>
      exact inv_onScriptEvent hostname protocol containerId ggbFileName
        env.scriptOutcome _ (inv_start containerId ggbFileName is3D dom)
  | succ n ih => exact inv_stepTick env _ ih

theorem run_frozen_of_settled (hostname protocol containerId ggbFileName : String)
    (is3D : Bool) (env : Env) (dom : Dom) (n m : Nat)
    (h : (run hostname protocol containerId ggbFileName is3D env dom n).log ≠ [])
    (hnm : n ≤ m) :
    run hostname protocol containerId ggbFileName is3D env dom m
      = run hostname protocol containerId ggbFileName is3D env dom n := by
  have hInv := inv_run hostname protocol containerId ggbFileName is3D env dom n
  have hph : activePolling
      (run hostname protocol containerId ggbFileName is3D env dom n).phase = false := by
    rcases hInv with h0 | ⟨_, hp | hp⟩
    · exact (h h0).elim
    · rw [hp]; rfl
    · rw [hp]; rfl
  obtain ⟨d, rfl⟩ : ∃ d, m = n + d := ⟨m - n, by omega⟩
  show ticks env _ (n + d) = ticks env _ n
  rw [ticks_add]
  exact ticks_frozen env _ d hph

theorem stepTick_phaseA (env : Env) (dom : Dom) (log : List SettleOp) (k : Nat) :
    stepTick env ⟨dom, log, Phase.phaseA k⟩ =
      if env.ggbAt (k + 1) then
        match env.ctorThrows with
        | some m =>
            ⟨dom, log ++ [SettleOp.reject (JsValue.errorObj (initFailedMsg m))], Phase.done⟩
        | none => ⟨dom, log, Phase.phaseB 0⟩
      else ⟨dom, log, Phase.phaseA (k + 1)⟩ := rfl

theorem stepTick_phaseB (env : Env) (dom : Dom) (log : List SettleOp) (j : Nat) :
    stepTick env ⟨dom, log, Phase.phaseB j⟩ =
      match env.instAt (j + 1) with
      | some v => ⟨dom, log ++ [SettleOp.resolve (JsValue.applet v)], Phase.done⟩
      | none => ⟨dom, log, Phase.phaseB (j + 1)⟩ := rfl

theorem onScriptEvent_not_awaiting (hostname protocol containerId ggbFileName : String)
    (o : ScriptOutcome) (s : CallState) (h : s.phase ≠ Phase.awaitingScript) :
    onScriptEvent hostname protocol containerId ggbFileName o s = s := by
  obtain ⟨dom, log, phase⟩ := s
  cases phase <;> cases o <;> simp_all [onScriptEvent]

theorem onScriptEvent_awaiting_loads (hostname protocol containerId ggbFileName : String)
    (s : CallState) (h : s.phase = Phase.awaitingScript) :
    onScriptEvent hostname protocol containerId ggbFileName ScriptOutcome.loads s
      = ⟨s.dom, s.log, Phase.phaseA 0⟩ := by
  obtain ⟨dom, log, phase⟩ := s
  cases phase <;> simp_all [onScriptEvent]

theorem onScriptEvent_awaiting_fails (hostname protocol containerId ggbFileName ev : String)
    (s : CallState) (h : s.phase = Phase.awaitingScript) :
    onScriptEvent hostname protocol containerId ggbFileName (ScriptOutcome.fails ev) s
      = ⟨setHTML s.dom containerId
            (errorHTML ggbFileName (basePath hostname protocol ++ ggbFileName)),
         s.log ++ [SettleOp.reject (JsValue.eventObj ev)], Phase.done⟩ := by
  obtain ⟨dom, log, phase⟩ := s
  cases phase <;> simp_all [onScriptEvent]

theorem onScriptEvent_silent (hostname protocol containerId ggbFileName : String)
    (s : CallState) :
    onScriptEvent hostname protocol containerId ggbFileName ScriptOutcome.silent s = s := by
  obtain ⟨dom, log, phase⟩ := s
  cases phase <;> simp [onScriptEvent]

theorem start_phase_cases (containerId ggbFileName : String) (is3D : Bool) (dom : Dom) :
    (loadGeoGebraStart containerId ggbFileName is3D dom).phase = Phase.rejectedEarly
    ∨ (loadGeoGebraStart containerId ggbFileName is3D dom).phase = Phase.awaitingScript := by
  by_cases h1 : containerId ∈ dom.containers
  · by_cases h2 : ggbFileName = ""
    · left; simp [loadGeoGebraStart, h1, h2]
    · by_cases h3 : endsWithGgb ggbFileName = true
      · right; simp [loadGeoGebraStart, h1, h2, h3, setHTML]
      · left
        simp only [Bool.not_eq_true] at h3
        simp [loadGeoGebraStart, h1, h2, h3]
  · left; simp [loadGeoGebraStart, h1]

theorem run_no_container (hostname protocol containerId ggbFileName : String) (is3D : Bool)
    (env : Env) (dom : Dom) (h : dom.containers.contains containerId = false) (n : Nat) :
    run hostname protocol containerId ggbFileName is3D env dom n =
      { dom := dom
        log := [SettleOp.reject (JsValue.errorObj (mountNotFoundMsg containerId))]
        phase := Phase.rejectedEarly } := by
  show ticks env _ n = _
  rw [start_of_no_container containerId ggbFileName is3D dom h,
    onScriptEvent_not_awaiting _ _ _ _ _ _ (by simp)]
  exact ticks_frozen env _ n rfl

theorem run_bad_name (hostname protocol containerId ggbFileName : String) (is3D : Bool)
    (env : Env) (dom : Dom) (h1 : dom.containers.contains containerId = true)
    (h2 : endsWithGgb ggbFileName = false) (n : Nat) :
    run hostname protocol containerId ggbFileName is3D env dom n =
      { dom := dom
        log := [SettleOp.reject (JsValue.errorObj invalidNameMsg)]
        phase := Phase.rejectedEarly } := by
  show ticks env _ n = _
  rw [start_of_bad_name containerId ggbFileName is3D dom h1 h2,
    onScriptEvent_not_awaiting _ _ _ _ _ _ (by simp)]
  exact ticks_frozen env _ n rfl

theorem run_valid_zero (hostname protocol containerId ggbFileName : String) (is3D : Bool)
    (env : Env) (dom : Dom) (h1 : dom.containers.contains containerId = true)
    (h2 : endsWithGgb ggbFileName = true) (ho : env.scriptOutcome = ScriptOutcome.loads) :
    run hostname protocol containerId ggbFileName is3D env dom 0 =
      ⟨(loadGeoGebraStart containerId ggbFileName is3D dom).dom,
        (loadGeoGebraStart containerId ggbFileName is3D dom).log, Phase.phaseA 0⟩ := by
  show onScriptEvent _ _ _ _ env.scriptOutcome _ = _
  rw [ho]
  refine onScriptEvent_awaiting_loads _ _ _ _ _ ?_
  rw [start_valid containerId ggbFileName is3D dom h1 h2]

theorem run_silent (hostname protocol containerId ggbFileName : String) (is3D : Bool)
    (env : Env) (dom : Dom) (ho : env.scriptOutcome = ScriptOutcome.silent) (t : Nat) :
    run hostname protocol containerId ggbFileName is3D env dom t
      = run hostname protocol containerId ggbFileName is3D env dom 0 := by
  have h0 : onScriptEvent hostname protocol containerId ggbFileName env.scriptOutcome
      (loadGeoGebraStart containerId ggbFileName is3D dom)
      = loadGeoGebraStart containerId ggbFileName is3D dom := by
    rw [ho]; exact onScriptEvent_silent _ _ _ _ _
  show ticks env _ t = ticks env _ 0
  rw [h0]
  rcases start_phase_cases containerId ggbFileName is3D dom with h | h <;>
    exact ticks_frozen env _ t (by rw [h]; rfl)

theorem phaseA_progress (env : Env) (dom : Dom) (log : List SettleOp) :
    ∀ (d k : Nat), env.ggbAt (k + 1 + d) = true →
      ∃ e, e ≤ d ∧
        ((env.ctorThrows = none ∧
            ticks env ⟨dom, log, Phase.phaseA k⟩ (e + 1) = ⟨dom, log, Phase.phaseB 0⟩)
         ∨ (∃ m, env.ctorThrows = some m ∧
            ticks env ⟨dom, log, Phase.phaseA k⟩ (e + 1)
              = ⟨dom, log ++ [SettleOp.reject (JsValue.errorObj (initFailedMsg m))],
                  Phase.done⟩)) := by
  intro d
  induction d with
  | zero =>
      intro k hg
      have hg1 : env.ggbAt (k + 1) = true := by simpa using hg
      refine ⟨0, Nat.le_refl 0, ?_⟩
      cases hc : env.ctorThrows with
      | none => exact Or.inl ⟨rfl, by simp [ticks, stepTick_phaseA, hg1, hc]⟩
      | some m => exact Or.inr ⟨m, rfl, by simp [ticks, stepTick_phaseA, hg1, hc]⟩
  | succ d ih =>
      intro k hg
      cases hgk : env.ggbAt (k + 1) with
      | true =>
          refine ⟨0, Nat.zero_le _, ?_⟩
          cases hc : env.ctorThrows with
          | none => exact Or.inl ⟨rfl, by simp [ticks, stepTick_phaseA, hgk, hc]⟩
          | some m => exact Or.inr ⟨m, rfl, by simp [ticks, stepTick_phaseA, hgk, hc]⟩
      | false =>
          have hg2 : env.ggbAt (k + 1 + 1 + d) = true := by
            have he : k + 1 + 1 + d = k + 1 + (d + 1) := by omega
            rw [he]; exact hg
          obtain ⟨e, he, hcase⟩ := ih (k + 1) hg2
          refine ⟨e + 1, by omega, ?_⟩
          have hstep : ticks env ⟨dom, log, Phase.phaseA k⟩ (e + 1 + 1)
              = ticks env ⟨dom, log, Phase.phaseA (k + 1)⟩ (e + 1) := by
            have h1 : e + 1 + 1 = 1 + (e + 1) := by omega
            rw [h1, ticks_add]
            congr 1
            simp [ticks, stepTick_phaseA, hgk]
          rw [hstep]
          exact hcase

theorem phaseB_progress (env : Env) (dom : Dom) (log : List SettleOp) :
    ∀ (d j : Nat), (env.instAt (j + 1 + d)).isSome = true →
      ∃ e, e ≤ d ∧ ∃ v,
        ticks env ⟨dom, log, Phase.phaseB j⟩ (e + 1)
          = ⟨dom, log ++ [SettleOp.resolve (JsValue.applet v)], Phase.done⟩ := by
  intro d
  induction d with
  | zero =>
      intro j hj
      have hj1 : (env.instAt (j + 1)).isSome = true := by simpa using hj
      obtain ⟨v, hv⟩ := Option.isSome_iff_exists.mp hj1
      exact ⟨0, Nat.le_refl 0, v, by simp [ticks, stepTick_phaseB, hv]⟩
  | succ d ih =>
      intro j hj
      cases hjv : env.instAt (j + 1) with
      | some v => exact ⟨0, Nat.zero_le _, v, by simp [ticks, stepTick_phaseB, hjv]⟩
      | none =>
          have hj2 : (env.instAt (j + 1 + 1 + d)).isSome = true := by
            have he : j + 1 + 1 + d = j + 1 + (d + 1) := by omega
            rw [he]; exact hj
          obtain ⟨e, he, v, hcase⟩ := ih (j + 1) hj2
          refine ⟨e + 1, by omega, v, ?_⟩
          have hstep : ticks env ⟨dom, log, Phase.phaseB j⟩ (e + 1 + 1)
              = ticks env ⟨dom, log, Phase.phaseB (j + 1)⟩ (e + 1) := by
            have h1 : e + 1 + 1 = 1 + (e + 1) := by omega
            rw [h1, ticks_add]
            congr 1
            simp [ticks, stepTick_phaseB, hjv]
          rw [hstep]
          exact hcase

theorem stepTick_phase_cases (env : Env) (s : CallState) :
    (stepTick env s).phase = s.phase
    ∨ (∃ k, s.phase = Phase.phaseA k ∧
        ((stepTick env s).phase = Phase.phaseA (k + 1)
         ∨ ((stepTick env s).phase = Phase.phaseB 0 ∧ env.ggbAt (k + 1) = true
              ∧ env.ctorThrows = none)
         ∨ (stepTick env s).phase = Phase.done))
    ∨ (∃ j, s.phase = Phase.phaseB j ∧
        ((stepTick env s).phase = Phase.phaseB (j + 1)
         ∨ (stepTick env s).phase = Phase.done)) := by
  obtain ⟨dom, log, phase⟩ := s
  cases phase with
  | phaseA k =>
      refine Or.inr (Or.inl ⟨k, rfl, ?_⟩)
      cases hg : env.ggbAt (k + 1) with
      | false => exact Or.inl (by simp [stepTick_phaseA, hg])
      | true =>
          cases hc : env.ctorThrows with
          | none =>
              exact Or.inr (Or.inl ⟨by simp [stepTick_phaseA, hg, hc], rfl, rfl⟩)
          | some m => exact Or.inr (Or.inr (by simp [stepTick_phaseA, hg, hc]))
  | phaseB j =>
      refine Or.inr (Or.inr ⟨j, rfl, ?_⟩)
      cases hj : env.instAt (j + 1) with
      | none => exact Or.inl (by simp [stepTick_phaseB, hj])
      | some v => exact Or.inr (by simp [stepTick_phaseB, hj])
  | rejectedEarly => exact Or.inl rfl
  | awaitingScript => exact Or.inl rfl
  | done => exact Or.inl rfl

theorem run_zero_phase_cases (hostname protocol containerId ggbFileName : String)
    (is3D : Bool) (env : Env) (dom : Dom) :
    (run hostname protocol containerId ggbFileName is3D env dom 0).phase = Phase.rejectedEarly
    ∨ (run hostname protocol containerId ggbFileName is3D env dom 0).phase
        = Phase.awaitingScript
    ∨ ((run hostname protocol containerId ggbFileName is3D env dom 0).phase = Phase.phaseA 0
        ∧ env.scriptOutcome = ScriptOutcome.loads)
    ∨ (run hostname protocol containerId ggbFileName is3D env dom 0).phase = Phase.done := by
  rcases start_phase_cases containerId ggbFileName is3D dom with h | h
  · left
    show (onScriptEvent _ _ _ _ _ _).phase = _
    rw [onScriptEvent_not_awaiting _ _ _ _ _ _ (by rw [h]; simp), h]
  · cases ho : env.scriptOutcome with
    | loads =>
        right; right; left
        constructor
        · show (onScriptEvent _ _ _ _ env.scriptOutcome _).phase = _
          rw [ho, onScriptEvent_awaiting_loads _ _ _ _ _ h]
        · rfl
    | fails ev =>
        right; right; right
        show (onScriptEvent _ _ _ _ env.scriptOutcome _).phase = _
        rw [ho, onScriptEvent_awaiting_fails _ _ _ _ _ _ h]
    | silent =>
        right; left
        show (onScriptEvent _ _ _ _ env.scriptOutcome _).phase = _
        rw [ho, onScriptEvent_silent, h]

theorem run_phase_origin (hostname protocol containerId ggbFileName : String)
    (is3D : Bool) (env : Env) (dom : Dom) :
    ∀ n, (∀ k, (run hostname protocol containerId ggbFileName is3D env dom n).phase
            = Phase.phaseA k → env.scriptOutcome = ScriptOutcome.loads)
       ∧ (∀ j, (run hostname protocol containerId ggbFileName is3D env dom n).phase
            = Phase.phaseB j →
              env.scriptOutcome = ScriptOutcome.loads ∧ ∃ u, env.ggbAt u = true) := by
  intro n
  induction n with
  | zero =>
      constructor
      · intro k hk
        rcases run_zero_phase_cases hostname protocol containerId ggbFileName is3D env dom
          with h | h | ⟨h, ho⟩ | h <;> rw [hk] at h <;> first | exact ho | simp_all
      · intro j hj
        rcases run_zero_phase_cases hostname protocol containerId ggbFileName is3D env dom
          with h | h | ⟨h, ho⟩ | h <;> rw [hj] at h <;> simp_all
  | succ n ih =>
      have hstep : run hostname protocol containerId ggbFileName is3D env dom (n + 1)
          = stepTick env (run hostname protocol containerId ggbFileName is3D env dom n) :=
        rfl
      constructor
      · intro k hk
        rw [hstep] at hk
        rcases stepTick_phase_cases env
            (run hostname protocol containerId ggbFileName is3D env dom n)
          with h | ⟨k', hk', h | ⟨h, _, _⟩ | h⟩ | ⟨j', hj', h | h⟩
        · exact ih.1 k (h ▸ hk)
        · exact ih.1 k' hk'
        · rw [hk] at h; simp_all
        · rw [hk] at h; simp_all
        · rw [hk] at h; simp_all
        · rw [hk] at h; simp_all
      · intro j hj
        rw [hstep] at hj
        rcases stepTick_phase_cases env
            (run hostname protocol containerId ggbFileName is3D env dom n)
          with h | ⟨k', hk', h | ⟨h, hg, _⟩ | h⟩ | ⟨j', hj', h | h⟩
        · exact ih.2 j (h ▸ hj)
        · rw [hj] at h; simp_all
        · exact ⟨ih.1 k' hk', k' + 1, hg⟩
        · rw [hj] at h; simp_all
        · exact ih.2 j' hj'
        · rw [hj] at h; simp_all

theorem run_no_phaseB_of_ctorThrows (hostname protocol containerId ggbFileName : String)
    (is3D : Bool) (env : Env) (dom : Dom) (m : String)
    (hc : env.ctorThrows = some m) :
    ∀ n j, (run hostname protocol containerId ggbFileName is3D env dom n).phase
      ≠ Phase.phaseB j := by
  intro n
  induction n with
  | zero =>
      intro j hj
      rcases run_zero_phase_cases hostname protocol containerId ggbFileName is3D env dom
        with h | h | ⟨h, _⟩ | h <;> rw [hj] at h <;> simp_all
  | succ n ih =>
      intro j hj
      have hstep : run hostname protocol containerId ggbFileName is3D env dom (n + 1)
          = stepTick env (run hostname protocol containerId ggbFileName is3D env dom n) :=
        rfl
      rw [hstep] at hj
      rcases stepTick_phase_cases env
          (run hostname protocol containerId ggbFileName is3D env dom n)
        with h | ⟨k', _, h | ⟨_, _, hc'⟩ | h⟩ | ⟨j', hj', _⟩
      · exact ih j (h ▸ hj)
      · rw [hj] at h; simp_all
      · rw [hc] at hc'; simp_all
      · rw [hj] at h; simp_all
      · exact ih j' hj'

theorem setHTML_self (dom : Dom) (i h : String) :
    (setHTML dom i h).containerHTML i = some h := by
  simp [setHTML]

theorem start_containers (containerId ggbFileName : String) (is3D : Bool) (dom : Dom) :
    (loadGeoGebraStart containerId ggbFileName is3D dom).dom.containers
      = dom.containers := by
  by_cases h1 : containerId ∈ dom.containers
  · by_cases h2 : ggbFileName = ""
    · simp [loadGeoGebraStart, h1, h2]
    · by_cases h3 : endsWithGgb ggbFileName = true
      · by_cases hs : scriptId is3D ∈ dom.scripts <;>
          simp [loadGeoGebraStart, h1, h2, h3, setHTML, hs]
      · simp only [Bool.not_eq_true] at h3
        simp [loadGeoGebraStart, h1, h2, h3]
  · simp [loadGeoGebraStart, h1]

theorem run_containers (hostname protocol containerId ggbFileName : String) (is3D : Bool)
    (env : Env) (dom : Dom) (n : Nat) :
    (run hostname protocol containerId ggbFileName is3D env dom n).dom.containers
      = dom.containers := by
  show (ticks env _ n).dom.containers = _
  rw [ticks_dom, onScriptEvent_containers, start_containers]

theorem run_scripts (hostname protocol containerId ggbFileName : String) (is3D : Bool)
    (env : Env) (dom : Dom) (n : Nat) :
    (run hostname protocol containerId ggbFileName is3D env dom n).dom.scripts
      = (loadGeoGebraStart containerId ggbFileName is3D dom).dom.scripts := by
  show (ticks env _ n).dom.scripts = _
  rw [ticks_dom, onScriptEvent_scripts]

theorem run_fails_state (hostname protocol containerId ggbFileName ev : String)
    (is3D : Bool) (env : Env) (dom : Dom)
    (h1 : dom.containers.contains containerId = true)
    (h2 : endsWithGgb ggbFileName = true)
    (ho : env.scriptOutcome = ScriptOutcome.fails ev) (n : Nat) :
    run hostname protocol containerId ggbFileName is3D env dom n
      = ⟨setHTML (loadGeoGebraStart containerId ggbFileName is3D dom).dom containerId
            (errorHTML ggbFileName (basePath hostname protocol ++ ggbFileName)),
          [SettleOp.reject (JsValue.eventObj ev)], Phase.done⟩ := by
  have hawait : (loadGeoGebraStart containerId ggbFileName is3D dom).phase
      = Phase.awaitingScript := by
    rw [start_valid containerId ggbFileName is3D dom h1 h2]
  have hlog : (loadGeoGebraStart containerId ggbFileName is3D dom).log = [] := by
    rw [start_valid containerId ggbFileName is3D dom h1 h2]
  show ticks env _ n = _
  rw [ho, onScriptEvent_awaiting_fails _ _ _ _ _ _ hawait, hlog]
  simp only [List.nil_append]
  exact ticks_frozen env _ n rfl

theorem run_ctorThrows (hostname protocol containerId ggbFileName : String) (is3D : Bool)
    (env : Env) (dom : Dom) (m : String)
    (h1 : dom.containers.contains containerId = true)
    (h2 : endsWithGgb ggbFileName = true)
    (ho : env.scriptOutcome = ScriptOutcome.loads)
    (hc : env.ctorThrows = some m)
    (t : Nat) (ht : 1 ≤ t) (hg : env.ggbAt t = true) :
    ∃ kk, run hostname protocol containerId ggbFileName is3D env dom kk
      = ⟨(loadGeoGebraStart containerId ggbFileName is3D dom).dom,
          [SettleOp.reject (JsValue.errorObj (initFailedMsg m))], Phase.done⟩ := by
  have hlog : (loadGeoGebraStart containerId ggbFileName is3D dom).log = [] := by
    rw [start_valid containerId ggbFileName is3D dom h1 h2]
  have hs1 : onScriptEvent hostname protocol containerId ggbFileName env.scriptOutcome
        (loadGeoGebraStart containerId ggbFileName is3D dom)
      = ⟨(loadGeoGebraStart containerId ggbFileName is3D dom).dom,
          (loadGeoGebraStart containerId ggbFileName is3D dom).log, Phase.phaseA 0⟩ :=
    run_valid_zero hostname protocol containerId ggbFileName is3D env dom h1 h2 ho
  have hg0 : env.ggbAt (0 + 1 + (t - 1)) = true := by
    have he : 0 + 1 + (t - 1) = t := by omega
    rw [he]; exact hg
  obtain ⟨e, _, hcase⟩ := phaseA_progress env
    (loadGeoGebraStart containerId ggbFileName is3D dom).dom
    (loadGeoGebraStart containerId ggbFileName is3D dom).log (t - 1) 0 hg0
  rcases hcase with ⟨hnone, _⟩ | ⟨m', hsome, heq⟩
  · rw [hc] at hnone; exact absurd hnone (by simp)
  · rw [hc] at hsome
    have hm : m' = m := by
      injection hsome with hmm
      exact hmm.symm
    subst hm
    refine ⟨e + 1, ?_⟩
    show ticks env _ (e + 1) = _
    rw [hs1, heq, hlog]
    simp

theorem run_resolves (hostname protocol containerId ggbFileName : String) (is3D : Bool)
    (env : Env) (dom : Dom)
    (h1 : dom.containers.contains containerId = true)
    (h2 : endsWithGgb ggbFileName = true)
    (ho : env.scriptOutcome = ScriptOutcome.loads)
    (hc : env.ctorThrows = none)
    (t : Nat) (ht : 1 ≤ t) (hg : env.ggbAt t = true)
    (u : Nat) (hu : 1 ≤ u) (hi : (env.instAt u).isSome = true) :
    ∃ kk v, run hostname protocol containerId ggbFileName is3D env dom kk
      = ⟨(loadGeoGebraStart containerId ggbFileName is3D dom).dom,
          [SettleOp.resolve (JsValue.applet v)], Phase.done⟩ := by
  have hlog : (loadGeoGebraStart containerId ggbFileName is3D dom).log = [] := by
    rw [start_valid containerId ggbFileName is3D dom h1 h2]
  have hs1 : onScriptEvent hostname protocol containerId ggbFileName env.scriptOutcome
        (loadGeoGebraStart containerId ggbFileName is3D dom)
      = ⟨(loadGeoGebraStart containerId ggbFileName is3D dom).dom,
          (loadGeoGebraStart containerId ggbFileName is3D dom).log, Phase.phaseA 0⟩ :=
    run_valid_zero hostname protocol containerId ggbFileName is3D env dom h1 h2 ho
  have hg0 : env.ggbAt (0 + 1 + (t - 1)) = true := by
    have he : 0 + 1 + (t - 1) = t := by omega
    rw [he]; exact hg
  obtain ⟨e, _, hcase⟩ := phaseA_progress env
    (loadGeoGebraStart containerId ggbFileName is3D dom).dom
    (loadGeoGebraStart containerId ggbFileName is3D dom).log (t - 1) 0 hg0
  rcases hcase with ⟨_, heqA⟩ | ⟨m', hsome, _⟩
  · have hi0 : (env.instAt (0 + 1 + (u - 1))).isSome = true := by
      have he : 0 + 1 + (u - 1) = u := by omega
      rw [he]; exact hi
    obtain ⟨e2, _, v, heqB⟩ := phaseB_progress env
      (loadGeoGebraStart containerId ggbFileName is3D dom).dom
      (loadGeoGebraStart containerId ggbFileName is3D dom).log (u - 1) 0 hi0
    refine ⟨(e + 1) + (e2 + 1), v, ?_⟩
    show ticks env _ ((e + 1) + (e2 + 1)) = _
    rw [ticks_add, hs1, heqA, heqB, hlog]
    simp
  · rw [hc] at hsome; exact absurd hsome (by simp)

theorem start_scripts_count (containerId ggbFileName : String) (is3D : Bool) (dom : Dom)
    (h1 : dom.containers.contains containerId = true)
    (h2 : endsWithGgb ggbFileName = true)
    (h5 : dom.scripts.count (scriptId is3D) ≤ 1) :
    (loadGeoGebraStart containerId ggbFileName is3D dom).dom.scripts.count (scriptId is3D)
      = 1 := by
  rw [start_valid containerId ggbFileName is3D dom h1 h2]
  by_cases hs : scriptId is3D ∈ dom.scripts
  · have hpos : 0 < dom.scripts.count (scriptId is3D) := List.count_pos_iff.mpr hs
    simp only [hs, if_true, List.count_append, List.count_erase_self]
    have hone : dom.scripts.count (scriptId is3D) = 1 := by omega
    simp [hone]
  · simp [hs, List.count_append, List.count_eq_zero.mpr hs]

/-- Schedules under which a loadGeoGebra call is guaranteed to settle: the
mount point is missing, the filename is invalid, the script errors, or the
script loads and the library global eventually appears and afterwards either
construction throws or the instance eventually appears. -/
def SettlementAssured (containerId ggbFileName : String) (env : Env) (dom : Dom) : Prop :=
  dom.containers.contains containerId = false
  ∨ endsWithGgb ggbFileName = false
  ∨ (∃ ev, env.scriptOutcome = ScriptOutcome.fails ev)
  ∨ (env.scriptOutcome = ScriptOutcome.loads
     ∧ (∃ t, 1 ≤ t ∧ env.ggbAt t = true)
     ∧ (env.ctorThrows ≠ none ∨ ∃ u, 1 ≤ u ∧ (env.instAt u).isSome = true))

/-- C1: for every call to loadGeoGebra, under any schedule of validation
outcomes, script load or error events, and polling ticks, the promise is
settled at most once (the log of resolve and reject calls never exceeds one
entry and never changes once nonempty), and whenever the schedule assures an
outcome, exactly one settlement eventually occurs. -/
theorem loadGeoGebra_promise_settled_exactly_once
    (hostname protocol containerId ggbFileName : String) (is3D : Bool)
    (env : Env) (dom : Dom) (n m : Nat) :
    (run hostname protocol containerId ggbFileName is3D env dom n).log.length ≤ 1
    ∧ (n ≤ m → (run hostname protocol containerId ggbFileName is3D env dom n).log ≠ [] →
        run hostname protocol containerId ggbFileName is3D env dom m
          = run hostname protocol containerId ggbFileName is3D env dom n)
    ∧ (SettlementAssured containerId ggbFileName env dom →
        ∃ k, (run hostname protocol containerId ggbFileName is3D env dom k).log.length
          = 1) := by
  refine ⟨?_, ?_, ?_⟩
  · rcases inv_run hostname protocol containerId ggbFileName is3D env dom n with h | ⟨h, _⟩
    · simp [h]
    · exact h.le
  · intro hnm hne
    exact run_frozen_of_settled hostname protocol containerId ggbFileName is3D env dom
      n m hne hnm
  · intro hsa
    by_cases h1 : dom.containers.contains containerId = true
    · by_cases h2 : endsWithGgb ggbFileName = true
      · rcases hsa with h | h | ⟨ev, h⟩ | ⟨ho, ⟨t, ht, hg⟩, hrest⟩
        · rw [h1] at h
          exact absurd h (by decide)
        · rw [h2] at h
          exact absurd h (by decide)
        · exact ⟨0, by
            rw [run_fails_state hostname protocol containerId ggbFileName ev is3D env dom
              h1 h2 h 0]
            rfl⟩
        · cases hct : env.ctorThrows with
          | some mv =>
              obtain ⟨kk, hkk⟩ := run_ctorThrows hostname protocol containerId ggbFileName
                is3D env dom mv h1 h2 ho hct t ht hg
              exact ⟨kk, by rw [hkk]; rfl⟩
          | none =>
              rcases hrest with hcne | ⟨u, hu, hi⟩
              · exact absurd hct hcne
              · obtain ⟨kk, v, hkk⟩ := run_resolves hostname protocol containerId
                  ggbFileName is3D env dom h1 h2 ho hct t ht hg u hu hi
                exact ⟨kk, by rw [hkk]; rfl⟩
      · have h2' : endsWithGgb ggbFileName = false := by simpa using h2
        exact ⟨0, by
          rw [run_bad_name hostname protocol containerId ggbFileName is3D env dom
            h1 h2' 0]
          rfl⟩
    · have h1' : dom.containers.contains containerId = false := by simpa using h1
      exact ⟨0, by
        rw [run_no_container hostname protocol containerId ggbFileName is3D env dom
          h1' 0]
        rfl⟩

/-- Witness for C1 at a concrete schedule where the script element errors. -/
theorem loadGeoGebra_promise_settled_exactly_once_witness :
    (run "example.com" "https:" "c" "a.ggb" false
        ⟨ScriptOutcome.fails "neterr", fun _ => false, none, fun _ => none⟩
        ⟨["c"], fun _ => none, []⟩ 3).log.length ≤ 1
    ∧ run "example.com" "https:" "c" "a.ggb" false
        ⟨ScriptOutcome.fails "neterr", fun _ => false, none, fun _ => none⟩
        ⟨["c"], fun _ => none, []⟩ 5
      = run "example.com" "https:" "c" "a.ggb" false
          ⟨ScriptOutcome.fails "neterr", fun _ => false, none, fun _ => none⟩
          ⟨["c"], fun _ => none, []⟩ 3
    ∧ ∃ k, (run "example.com" "https:" "c" "a.ggb" false
        ⟨ScriptOutcome.fails "neterr", fun _ => false, none, fun _ => none⟩
        ⟨["c"], fun _ => none, []⟩ k).log.length = 1 := by
  have h := loadGeoGebra_promise_settled_exactly_once "example.com" "https:" "c" "a.ggb"
    false ⟨ScriptOutcome.fails "neterr", fun _ => false, none, fun _ => none⟩
    ⟨["c"], fun _ => none, []⟩ 3 5
  refine ⟨h.1, h.2.1 (by omega) ?_, h.2.2 ?_⟩
  · rw [run_fails_state "example.com" "https:" "c" "a.ggb" "neterr" false _ _
      (by decide) (by decide) rfl 3]
    simp
  · exact Or.inr (Or.inr (Or.inl ⟨"neterr", rfl⟩))

/-- The mock schedule of spec §8 item 4: the script loads, window.GGBApplet
is present from the N-th checkInterval tick on, construction succeeds, and
the applet instance is present from the M-th onLoaded tick on. -/
def envNM (N M : Nat) (inst : String) : Env :=
  ⟨ScriptOutcome.loads, fun t => decide (N ≤ t), none,
    fun j => if M ≤ j then some inst else none⟩

/-- C2: under the mock schedule where the library global appears after N
Phase-A ticks and the instance after M further Phase-B ticks, the promise
resolves with the discovered instance on tick N+M and never earlier; the
call is in Phase A for the first N ticks and in Phase B for the next M;
moreover, for any schedule, Phase B is only ever reached after the script
onload fired and Phase A observed the library global, and with no script
event at all the machine never leaves its initial state. -/
theorem loadGeoGebra_mock_schedule_resolves_on_tick_sum
    (hostname protocol containerId ggbFileName inst : String) (is3D : Bool)
    (dom : Dom) (N M : Nat) (hN : 1 ≤ N) (hM : 1 ≤ M)
    (h1 : dom.containers.contains containerId = true)
    (h2 : endsWithGgb ggbFileName = true) :
    (run hostname protocol containerId ggbFileName is3D (envNM N M inst) dom (N + M)).log
        = [SettleOp.resolve (JsValue.applet inst)]
    ∧ (∀ t, t < N + M →
        (run hostname protocol containerId ggbFileName is3D (envNM N M inst) dom t).log
          = [])
    ∧ (∀ t, t < N →
        (run hostname protocol containerId ggbFileName is3D (envNM N M inst) dom t).phase
          = Phase.phaseA t)
    ∧ (∀ u, u < M →
        (run hostname protocol containerId ggbFileName is3D (envNM N M inst) dom
          (N + u)).phase = Phase.phaseB u)
    ∧ (∀ (env2 : Env) (t j : Nat),
        (run hostname protocol containerId ggbFileName is3D env2 dom t).phase
            = Phase.phaseB j →
          env2.scriptOutcome = ScriptOutcome.loads ∧ ∃ u, env2.ggbAt u = true)
    ∧ (∀ (env3 : Env) (t : Nat), env3.scriptOutcome = ScriptOutcome.silent →
        run hostname protocol containerId ggbFileName is3D env3 dom t
          = run hostname protocol containerId ggbFileName is3D env3 dom 0) := by
  have hlog : (loadGeoGebraStart containerId ggbFileName is3D dom).log = [] := by
    rw [start_valid containerId ggbFileName is3D dom h1 h2]
  have h00 : run hostname protocol containerId ggbFileName is3D (envNM N M inst) dom 0
      = ⟨(loadGeoGebraStart containerId ggbFileName is3D dom).dom, [], Phase.phaseA 0⟩ := by
    rw [run_valid_zero hostname protocol containerId ggbFileName is3D (envNM N M inst)
      dom h1 h2 rfl, hlog]
  have hA : ∀ t, t < N →
      run hostname protocol containerId ggbFileName is3D (envNM N M inst) dom t
        = ⟨(loadGeoGebraStart containerId ggbFileName is3D dom).dom, [],
            Phase.phaseA t⟩ := by
    intro t
    induction t with
    | zero => intro _; exact h00
    | succ t ih =>
        intro hlt
        have hr := ih (by omega)
        have hstep : run hostname protocol containerId ggbFileName is3D (envNM N M inst)
            dom (t + 1)
            = stepTick (envNM N M inst)
                (run hostname protocol containerId ggbFileName is3D (envNM N M inst)
                  dom t) := rfl
        rw [hstep, hr, stepTick_phaseA]
        have hg : (envNM N M inst).ggbAt (t + 1) = false := by
          simp only [envNM]
          simp only [decide_eq_false_iff_not]
          omega
        simp [hg]
  have hAB : run hostname protocol containerId ggbFileName is3D (envNM N M inst) dom N
      = ⟨(loadGeoGebraStart containerId ggbFileName is3D dom).dom, [],
          Phase.phaseB 0⟩ := by
    obtain ⟨N', hNe⟩ : ∃ N', N = N' + 1 := ⟨N - 1, by omega⟩
    subst hNe
    have hstep : run hostname protocol containerId ggbFileName is3D
        (envNM (N' + 1) M inst) dom (N' + 1)
        = stepTick (envNM (N' + 1) M inst)
            (run hostname protocol containerId ggbFileName is3D (envNM (N' + 1) M inst)
              dom N') := rfl
    rw [hstep, hA N' (by omega), stepTick_phaseA]
    have hg : (envNM (N' + 1) M inst).ggbAt (N' + 1) = true := by
      simp only [envNM]
      simp only [decide_eq_true_eq]
      omega
    simp [hg, envNM]
  have hB : ∀ u, u < M →
      run hostname protocol containerId ggbFileName is3D (envNM N M inst) dom (N + u)
        = ⟨(loadGeoGebraStart containerId ggbFileName is3D dom).dom, [],
            Phase.phaseB u⟩ := by
    intro u
    induction u with
    | zero => intro _; exact hAB
    | succ u ih =>
        intro hlt
        have hr := ih (by omega)
        have hstep : run hostname protocol containerId ggbFileName is3D (envNM N M inst)
            dom (N + (u + 1))
            = stepTick (envNM N M inst)
                (run hostname protocol containerId ggbFileName is3D (envNM N M inst)
                  dom (N + u)) := rfl
        rw [hstep, hr, stepTick_phaseB]
        have hi : (envNM N M inst).instAt (u + 1) = none := by
          simp only [envNM]
          rw [if_neg (by omega)]
        rw [hi]
  have hFin : run hostname protocol containerId ggbFileName is3D (envNM N M inst) dom
      (N + M)
      = ⟨(loadGeoGebraStart containerId ggbFileName is3D dom).dom,
          [SettleOp.resolve (JsValue.applet inst)], Phase.done⟩ := by
    obtain ⟨M', hMe⟩ : ∃ M', M = M' + 1 := ⟨M - 1, by omega⟩
    subst hMe
    have hstep : run hostname protocol containerId ggbFileName is3D
        (envNM N (M' + 1) inst) dom (N + (M' + 1))
        = stepTick (envNM N (M' + 1) inst)
            (run hostname protocol containerId ggbFileName is3D (envNM N (M' + 1) inst)
              dom (N + M')) := rfl
    rw [hstep, hB M' (by omega), stepTick_phaseB]
    have hi : (envNM N (M' + 1) inst).instAt (M' + 1) = some inst := by
      simp only [envNM]
      rw [if_pos (by omega)]
    rw [hi]
    simp
  refine ⟨by rw [hFin], ?_, ?_, ?_, ?_, ?_⟩
  · intro t ht
    by_cases htN : t < N
    · rw [hA t htN]
    · obtain ⟨u, rfl⟩ : ∃ u, t = N + u := ⟨t - N, by omega⟩
      rw [hB u (by omega)]
  · intro t ht
    rw [hA t ht]
  · intro u hu
    rw [hB u hu]

  · intro env2 t j hph
    exact (run_phase_origin hostname protocol containerId ggbFileName is3D env2 dom t).2
      j hph
  · intro env3 t ho
    exact run_silent hostname protocol containerId ggbFileName is3D env3 dom ho t

/-- Witness for C2 with N = M = 1 on a concrete page. -/
theorem loadGeoGebra_mock_schedule_resolves_on_tick_sum_witness :
    (run "example.com" "https:" "c" "a.ggb" false (envNM 1 1 "inst0")
        ⟨["c"], fun _ => none, []⟩ 2).log
      = [SettleOp.resolve (JsValue.applet "inst0")]
    ∧ (run "example.com" "https:" "c" "a.ggb" false (envNM 1 1 "inst0")
        ⟨["c"], fun _ => none, []⟩ 1).log = [] := by
  have h := loadGeoGebra_mock_schedule_resolves_on_tick_sum "example.com" "https:" "c"
    "a.ggb" "inst0" false ⟨["c"], fun _ => none, []⟩ 1 1 (by omega) (by omega)
    (by decide) (by decide)
  exact ⟨h.1, h.2.1 1 (by omega)⟩

theorem mount_ne_invalid (containerId : String) :
    invalidNameMsg ≠ mountNotFoundMsg containerId := by
  intro h
  have h2 := congrArg String.data h
  simp [invalidNameMsg, mountNotFoundMsg, String.data_append] at h2

theorem start_html (containerId ggbFileName : String) (is3D : Bool) (dom : Dom)
    (h1 : dom.containers.contains containerId = true)
    (h2 : endsWithGgb ggbFileName = true) :
    (loadGeoGebraStart containerId ggbFileName is3D dom).dom.containerHTML containerId
      = some (loadingHTML ggbFileName) := by
  rw [start_valid containerId ggbFileName is3D dom h1 h2]
  simp

/-- C3 counterexample: with a valid mount point whose contents are "old" and
the invalid filename "notAGgbFile.txt", loadGeoGebra rejects, yet the mount
point's contents are left untouched — they are not replaced with the
diagnostic panel, contradicting the claim for the InvalidResourceName error
outcome. -/
theorem loadGeoGebra_error_panel_counterexample :
    (run "example.com" "https:" "c" "notAGgbFile.txt" false
        ⟨ScriptOutcome.silent, fun _ => false, none, fun _ => none⟩
        ⟨["c"], fun _ => some "old", []⟩ 0).log
      = [SettleOp.reject (JsValue.errorObj invalidNameMsg)]
    ∧ (run "example.com" "https:" "c" "notAGgbFile.txt" false
        ⟨ScriptOutcome.silent, fun _ => false, none, fun _ => none⟩
        ⟨["c"], fun _ => some "old", []⟩ 0).dom.containerHTML "c" = some "old"
    ∧ "old" ≠ errorHTML "notAGgbFile.txt"
        (basePath "example.com" "https:" ++ "notAGgbFile.txt") := by
  rw [run_bad_name "example.com" "https:" "c" "notAGgbFile.txt" false
    ⟨ScriptOutcome.silent, fun _ => false, none, fun _ => none⟩
    ⟨["c"], fun _ => some "old", []⟩ (by decide) (by decide) 0]
  refine ⟨rfl, rfl, ?_⟩
  decide

/-- C3 amended: every error outcome rejects the call's promise exactly once,
but only the ResourceLoadFailed outcome (script.onerror) additionally replaces
the mount point's contents with the diagnostic panel; MountNotFound and
InvalidResourceName reject with the page untouched, and InitializationFailed
rejects leaving the loading animation in the mount point. -/
theorem loadGeoGebra_error_surfacing_amended
    (hostname protocol containerId ggbFileName : String) (is3D : Bool)
    (env : Env) (dom : Dom) (n : Nat) :
    (dom.containers.contains containerId = false →
      (run hostname protocol containerId ggbFileName is3D env dom n).log
          = [SettleOp.reject (JsValue.errorObj (mountNotFoundMsg containerId))]
        ∧ (run hostname protocol containerId ggbFileName is3D env dom n).dom = dom)
    ∧ (dom.containers.contains containerId = true → endsWithGgb ggbFileName = false →
      (run hostname protocol containerId ggbFileName is3D env dom n).log
          = [SettleOp.reject (JsValue.errorObj invalidNameMsg)]
        ∧ (run hostname protocol containerId ggbFileName is3D env dom n).dom = dom)
    ∧ (∀ ev, dom.containers.contains containerId = true →
        endsWithGgb ggbFileName = true →
        env.scriptOutcome = ScriptOutcome.fails ev →
      (run hostname protocol containerId ggbFileName is3D env dom n).log
          = [SettleOp.reject (JsValue.eventObj ev)]
        ∧ (run hostname protocol containerId ggbFileName is3D env dom n).dom.containerHTML
            containerId
          = some (errorHTML ggbFileName (basePath hostname protocol ++ ggbFileName)))
    ∧ (∀ m t, dom.containers.contains containerId = true →
        endsWithGgb ggbFileName = true →
        env.scriptOutcome = ScriptOutcome.loads → env.ctorThrows = some m →
        1 ≤ t → env.ggbAt t = true →
      ∃ k, (run hostname protocol containerId ggbFileName is3D env dom k).log
            = [SettleOp.reject (JsValue.errorObj (initFailedMsg m))]
          ∧ (run hostname protocol containerId ggbFileName is3D env dom
              k).dom.containerHTML containerId = some (loadingHTML ggbFileName)) := by
  refine ⟨?_, ?_, ?_, ?_⟩
  · intro h
    rw [run_no_container hostname protocol containerId ggbFileName is3D env dom h n]
    exact ⟨rfl, rfl⟩
  · intro h1 h2
    rw [run_bad_name hostname protocol containerId ggbFileName is3D env dom h1 h2 n]
    exact ⟨rfl, rfl⟩
  · intro ev h1 h2 ho
    rw [run_fails_state hostname protocol containerId ggbFileName ev is3D env dom
      h1 h2 ho n]
    exact ⟨rfl, setHTML_self _ _ _⟩
  · intro m t h1 h2 ho hc ht hg
    obtain ⟨kk, hkk⟩ := run_ctorThrows hostname protocol containerId ggbFileName is3D
      env dom m h1 h2 ho hc t ht hg
    refine ⟨kk, by rw [hkk], ?_⟩
    rw [hkk]
    exact start_html containerId ggbFileName is3D dom h1 h2

/-- Witness for the amended C3 exercising all four error outcomes on concrete
pages and schedules. -/
theorem loadGeoGebra_error_surfacing_amended_witness :
    ((run "example.com" "https:" "c" "a.ggb" false
        ⟨ScriptOutcome.silent, fun _ => false, none, fun _ => none⟩
        ⟨[], fun _ => none, []⟩ 1).log
      = [SettleOp.reject (JsValue.errorObj (mountNotFoundMsg "c"))])
    ∧ ((run "example.com" "https:" "c" "bad.txt" false
        ⟨ScriptOutcome.silent, fun _ => false, none, fun _ => none⟩
        ⟨["c"], fun _ => none, []⟩ 1).log
      = [SettleOp.reject (JsValue.errorObj invalidNameMsg)])
    ∧ ((run "example.com" "https:" "c" "a.ggb" false
        ⟨ScriptOutcome.fails "neterr", fun _ => false, none, fun _ => none⟩
        ⟨["c"], fun _ => none, []⟩ 1).dom.containerHTML "c"
      = some (errorHTML "a.ggb" (basePath "example.com" "https:" ++ "a.ggb")))
    ∧ (∃ k, (run "example.com" "https:" "c" "a.ggb" false
        ⟨ScriptOutcome.loads, fun _ => true, some "boom", fun _ => none⟩
        ⟨["c"], fun _ => none, []⟩ k).log
      = [SettleOp.reject (JsValue.errorObj (initFailedMsg "boom"))]) := by
  refine ⟨?_, ?_, ?_, ?_⟩
  · exact ((loadGeoGebra_error_surfacing_amended "example.com" "https:" "c" "a.ggb"
      false ⟨ScriptOutcome.silent, fun _ => false, none, fun _ => none⟩
      ⟨[], fun _ => none, []⟩ 1).1 (by decide)).1
  · exact ((loadGeoGebra_error_surfacing_amended "example.com" "https:" "c" "bad.txt"
      false ⟨ScriptOutcome.silent, fun _ => false, none, fun _ => none⟩
      ⟨["c"], fun _ => none, []⟩ 1).2.1 (by decide) (by decide)).1
  · exact ((loadGeoGebra_error_surfacing_amended "example.com" "https:" "c" "a.ggb"
      false ⟨ScriptOutcome.fails "neterr", fun _ => false, none, fun _ => none⟩
      ⟨["c"], fun _ => none, []⟩ 1).2.2.1 "neterr" (by decide) (by decide) rfl).2
  · obtain ⟨k, hk, _⟩ := (loadGeoGebra_error_surfacing_amended "example.com" "https:"
      "c" "a.ggb" false ⟨ScriptOutcome.loads, fun _ => true, some "boom", fun _ => none⟩
      ⟨["c"], fun _ => none, []⟩ 0).2.2.2 "boom" 1 (by decide) (by decide) rfl rfl
      (by omega) rfl
    exact ⟨k, hk⟩

/-- C4: for each resourceKey (is3D value), starting from a page holding at
most one script element with that key's id, a successfully validated call
leaves exactly one such element, and a second call with the same key leaves
exactly one as well, at any point of either call's schedule. -/
theorem loadGeoGebra_script_element_unique_per_key
    (hostname protocol cid1 fname1 cid2 fname2 : String) (is3D : Bool)
    (env1 env2 : Env) (dom : Dom) (n1 n2 : Nat)
    (h1 : dom.containers.contains cid1 = true) (h2 : endsWithGgb fname1 = true)
    (h3 : dom.containers.contains cid2 = true) (h4 : endsWithGgb fname2 = true)
    (h5 : dom.scripts.count (scriptId is3D) ≤ 1) :
    (run hostname protocol cid1 fname1 is3D env1 dom n1).dom.scripts.count (scriptId is3D)
        = 1
    ∧ (run hostname protocol cid2 fname2 is3D env2
        (run hostname protocol cid1 fname1 is3D env1 dom n1).dom n2).dom.scripts.count
          (scriptId is3D) = 1 := by
  have hc1 : (run hostname protocol cid1 fname1 is3D env1 dom n1).dom.scripts.count
      (scriptId is3D) = 1 := by
    rw [run_scripts]
    exact start_scripts_count cid1 fname1 is3D dom h1 h2 h5
  refine ⟨hc1, ?_⟩
  have h3' : (run hostname protocol cid1 fname1 is3D env1 dom
      n1).dom.containers.contains cid2 = true := by
    rw [run_containers]
    exact h3
  rw [run_scripts]
  exact start_scripts_count cid2 fname2 is3D _ h3' h4 hc1.le

/-- Witness for C4: two consecutive 2D loads on a concrete page leave exactly
one script element with id geogebra-script. -/
theorem loadGeoGebra_script_element_unique_per_key_witness :
    (run "example.com" "https:" "c" "a.ggb" false
        ⟨ScriptOutcome.silent, fun _ => false, none, fun _ => none⟩
        ⟨["c"], fun _ => none, []⟩ 2).dom.scripts.count (scriptId false) = 1
    ∧ (run "example.com" "https:" "c" "b.ggb" false
        ⟨ScriptOutcome.silent, fun _ => false, none, fun _ => none⟩
        (run "example.com" "https:" "c" "a.ggb" false
          ⟨ScriptOutcome.silent, fun _ => false, none, fun _ => none⟩
          ⟨["c"], fun _ => none, []⟩ 2).dom 3).dom.scripts.count (scriptId false) = 1 :=
  loadGeoGebra_script_element_unique_per_key "example.com" "https:" "c" "a.ggb" "c"
    "b.ggb" false ⟨ScriptOutcome.silent, fun _ => false, none, fun _ => none⟩
    ⟨ScriptOutcome.silent, fun _ => false, none, fun _ => none⟩
    ⟨["c"], fun _ => none, []⟩ 2 3 (by decide) (by decide) (by decide) (by decide)
    (by decide)

/-- C5: when the mount point is absent, every run of loadGeoGebra rejects with
the mount-not-found Error and leaves the page completely unchanged — no
script element appended and no container content written. -/
theorem loadGeoGebra_mount_not_found_rejects_untouched
    (hostname protocol containerId ggbFileName : String) (is3D : Bool)
    (env : Env) (dom : Dom) (n : Nat)
    (h : dom.containers.contains containerId = false) :
    (run hostname protocol containerId ggbFileName is3D env dom n).log
        = [SettleOp.reject (JsValue.errorObj (mountNotFoundMsg containerId))]
    ∧ (run hostname protocol containerId ggbFileName is3D env dom n).dom = dom := by
  rw [run_no_container hostname protocol containerId ggbFileName is3D env dom h n]
  exact ⟨rfl, rfl⟩

/-- Witness for C5 on a page with no containers. -/
theorem loadGeoGebra_mount_not_found_rejects_untouched_witness :
    (run "example.com" "https:" "missing" "a.ggb" false
        ⟨ScriptOutcome.silent, fun _ => false, none, fun _ => none⟩
        ⟨[], fun _ => none, []⟩ 4).log
      = [SettleOp.reject (JsValue.errorObj (mountNotFoundMsg "missing"))]
    ∧ (run "example.com" "https:" "missing" "a.ggb" false
        ⟨ScriptOutcome.silent, fun _ => false, none, fun _ => none⟩
        ⟨[], fun _ => none, []⟩ 4).dom = ⟨[], fun _ => none, []⟩ :=
  loadGeoGebra_mount_not_found_rejects_untouched "example.com" "https:" "missing"
    "a.ggb" false ⟨ScriptOutcome.silent, fun _ => false, none, fun _ => none⟩
    ⟨[], fun _ => none, []⟩ 4 (by decide)

/-- C6: when the mount point exists but the filename lacks the .ggb extension,
every run of loadGeoGebra rejects with the invalid-filename Error and leaves
the page unchanged — in particular no script element is created or appended,
so no network access occurs. -/
theorem loadGeoGebra_invalid_name_rejects_untouched
    (hostname protocol containerId ggbFileName : String) (is3D : Bool)
    (env : Env) (dom : Dom) (n : Nat)
    (h1 : dom.containers.contains containerId = true)
    (h2 : endsWithGgb ggbFileName = false) :
    (run hostname protocol containerId ggbFileName is3D env dom n).log
        = [SettleOp.reject (JsValue.errorObj invalidNameMsg)]
    ∧ (run hostname protocol containerId ggbFileName is3D env dom n).dom = dom := by
  rw [run_bad_name hostname protocol containerId ggbFileName is3D env dom h1 h2 n]
  exact ⟨rfl, rfl⟩

/-- Witness for C6 with the filename "notAGgbFile.txt". -/
theorem loadGeoGebra_invalid_name_rejects_untouched_witness :
    (run "example.com" "https:" "c" "notAGgbFile.txt" false
        ⟨ScriptOutcome.silent, fun _ => false, none, fun _ => none⟩
        ⟨["c"], fun _ => none, []⟩ 4).log
      = [SettleOp.reject (JsValue.errorObj invalidNameMsg)]
    ∧ (run "example.com" "https:" "c" "notAGgbFile.txt" false
        ⟨ScriptOutcome.silent, fun _ => false, none, fun _ => none⟩
        ⟨["c"], fun _ => none, []⟩ 4).dom = ⟨["c"], fun _ => none, []⟩ :=
  loadGeoGebra_invalid_name_rejects_untouched "example.com" "https:" "c"
    "notAGgbFile.txt" false ⟨ScriptOutcome.silent, fun _ => false, none, fun _ => none⟩
    ⟨["c"], fun _ => none, []⟩ 4 (by decide) (by decide)

/-- C7: if library construction throws synchronously after Phase A first
observes the library global, the promise rejects with the
InitializationFailed Error carrying the thrown message, the machine is
permanently frozen from that point on (all polling stopped), and no state of
the call is ever in Phase B. -/
theorem loadGeoGebra_ctor_throw_rejects_initialization_failed
    (hostname protocol containerId ggbFileName : String) (is3D : Bool)
    (env : Env) (dom : Dom) (m : String)
    (h1 : dom.containers.contains containerId = true)
    (h2 : endsWithGgb ggbFileName = true)
    (ho : env.scriptOutcome = ScriptOutcome.loads)
    (hc : env.ctorThrows = some m)
    (t : Nat) (ht : 1 ≤ t) (hg : env.ggbAt t = true) :
    (∃ k, (run hostname protocol containerId ggbFileName is3D env dom k).log
          = [SettleOp.reject (JsValue.errorObj (initFailedMsg m))]
        ∧ (run hostname protocol containerId ggbFileName is3D env dom k).phase
          = Phase.done
        ∧ ∀ n, k ≤ n →
            run hostname protocol containerId ggbFileName is3D env dom n
              = run hostname protocol containerId ggbFileName is3D env dom k)
    ∧ (∀ n j, (run hostname protocol containerId ggbFileName is3D env dom n).phase
        ≠ Phase.phaseB j) := by
  obtain ⟨kk, hkk⟩ := run_ctorThrows hostname protocol containerId ggbFileName is3D
    env dom m h1 h2 ho hc t ht hg
  refine ⟨⟨kk, by rw [hkk], by rw [hkk], ?_⟩,
    run_no_phaseB_of_ctorThrows hostname protocol containerId ggbFileName is3D env dom
      m hc⟩
  intro n hn
  exact run_frozen_of_settled hostname protocol containerId ggbFileName is3D env dom
    kk n (by rw [hkk]; simp) hn

/-- Witness for C7 with a constructor that throws "boom" under a schedule
where the library global is present from the first tick. -/
theorem loadGeoGebra_ctor_throw_rejects_initialization_failed_witness :
    (∃ k, (run "example.com" "https:" "c" "a.ggb" false
        ⟨ScriptOutcome.loads, fun _ => true, some "boom", fun _ => none⟩
        ⟨["c"], fun _ => none, []⟩ k).log
      = [SettleOp.reject (JsValue.errorObj (initFailedMsg "boom"))])
    ∧ ∀ n j, (run "example.com" "https:" "c" "a.ggb" false
        ⟨ScriptOutcome.loads, fun _ => true, some "boom", fun _ => none⟩
        ⟨["c"], fun _ => none, []⟩ n).phase ≠ Phase.phaseB j := by
  obtain ⟨⟨k, hk1, _, _⟩, h2⟩ := loadGeoGebra_ctor_throw_rejects_initialization_failed
    "example.com" "https:" "c" "a.ggb" false
    ⟨ScriptOutcome.loads, fun _ => true, some "boom", fun _ => none⟩
    ⟨["c"], fun _ => none, []⟩ "boom" (by decide) (by decide) rfl rfl 1 (by omega) rfl
  exact ⟨⟨k, hk1⟩, h2⟩

/-- C8: the source-document URL passed to the library is exactly
basePath + filename, and basePath follows the three-way environment formula:
the dev-host URL when the hostname is a local-development host, the relative
path under the file protocol, and the absolute path otherwise. -/
theorem loadGeoGebra_base_path_formula (hostname protocol ggbFileName : String)
    (is3D : Bool) :
    (mkParams hostname protocol ggbFileName is3D).filename
        = basePath hostname protocol ++ ggbFileName
    ∧ (isLiveServer hostname = true →
        basePath hostname protocol = "http://" ++ hostname ++ ":5500/assets/ggb/")
    ∧ (isLiveServer hostname = false → isFileProtocol protocol = true →
        basePath hostname protocol = "./assets/ggb/")
    ∧ (isLiveServer hostname = false → isFileProtocol protocol = false →
        basePath hostname protocol = "/assets/ggb/") := by
  refine ⟨rfl, ?_, ?_, ?_⟩
  · intro h
    simp [basePath, h]
  · intro h h'
    simp [basePath, h, h']
  · intro h h'
    simp [basePath, h, h']

/-- Witness for C8 under the three concrete environments. -/
theorem loadGeoGebra_base_path_formula_witness :
    (mkParams "localhost" "http:" "a.ggb" false).filename
        = basePath "localhost" "http:" ++ "a.ggb"
    ∧ basePath "localhost" "http:" = "http://" ++ "localhost" ++ ":5500/assets/ggb/"
    ∧ basePath "example.com" "file:" = "./assets/ggb/"
    ∧ basePath "example.com" "https:" = "/assets/ggb/" :=
  ⟨(loadGeoGebra_base_path_formula "localhost" "http:" "a.ggb" false).1,
    (loadGeoGebra_base_path_formula "localhost" "http:" "a.ggb" false).2.1 (by decide),
    (loadGeoGebra_base_path_formula "example.com" "file:" "a.ggb" false).2.2.1
      (by decide) (by decide),
    (loadGeoGebra_base_path_formula "example.com" "https:" "a.ggb" false).2.2.2
      (by decide) (by decide)⟩

/-- C9: the mount-point check precedes the filename check — with the mount
point absent every run rejects with the mount-not-found Error whatever the
filename, and an invalid-filename rejection can only ever appear in the log
when the mount point exists. -/
theorem loadGeoGebra_mount_check_precedes_name_check
    (hostname protocol containerId ggbFileName : String) (is3D : Bool)
    (env : Env) (dom : Dom) (n : Nat) :
    (dom.containers.contains containerId = false →
      (run hostname protocol containerId ggbFileName is3D env dom n).log
        = [SettleOp.reject (JsValue.errorObj (mountNotFoundMsg containerId))])
    ∧ (SettleOp.reject (JsValue.errorObj invalidNameMsg)
          ∈ (run hostname protocol containerId ggbFileName is3D env dom n).log →
        dom.containers.contains containerId = true) := by
  constructor
  · intro h
    rw [run_no_container hostname protocol containerId ggbFileName is3D env dom h n]
  · intro hmem
    cases hcc : dom.containers.contains containerId with
    | true => rfl
    | false =>
        exfalso
        rw [run_no_container hostname protocol containerId ggbFileName is3D env dom
          hcc n] at hmem
        simp only [List.mem_singleton, SettleOp.reject.injEq,
          JsValue.errorObj.injEq] at hmem
        exact absurd hmem (mount_ne_invalid containerId)

/-- Witness for C9: with the mount point absent and an invalid filename the
mount error wins, and a concrete invalid-filename rejection implies the mount
point existed. -/
theorem loadGeoGebra_mount_check_precedes_name_check_witness :
    (run "example.com" "https:" "c" "bad.txt" false
        ⟨ScriptOutcome.silent, fun _ => false, none, fun _ => none⟩
        ⟨[], fun _ => none, []⟩ 0).log
      = [SettleOp.reject (JsValue.errorObj (mountNotFoundMsg "c"))]
    ∧ (⟨["c"], fun _ => none, []⟩ : Dom).containers.contains "c" = true := by
  have hmem : SettleOp.reject (JsValue.errorObj invalidNameMsg)
      ∈ (run "example.com" "https:" "c" "bad.txt" false
        ⟨ScriptOutcome.silent, fun _ => false, none, fun _ => none⟩
        ⟨["c"], fun _ => none, []⟩ 0).log := by
    rw [run_bad_name "example.com" "https:" "c" "bad.txt" false
      ⟨ScriptOutcome.silent, fun _ => false, none, fun _ => none⟩
      ⟨["c"], fun _ => none, []⟩ (by decide) (by decide) 0]
    simp
  exact ⟨(loadGeoGebra_mount_check_precedes_name_check "example.com" "https:" "c"
      "bad.txt" false ⟨ScriptOutcome.silent, fun _ => false, none, fun _ => none⟩
      ⟨[], fun _ => none, []⟩ 0).1 (by decide),
    (loadGeoGebra_mount_check_precedes_name_check "example.com" "https:" "c" "bad.txt"
      false ⟨ScriptOutcome.silent, fun _ => false, none, fun _ => none⟩
      ⟨["c"], fun _ => none, []⟩ 0).2 hmem⟩

/-- C10: embedGeoGebra with a missing container or a falsy materialId returns
with the page unchanged, and only when the container exists and materialId is
truthy does it replace the container's contents with the iframe template. -/
theorem embedGeoGebra_guards_and_template (containerId materialId : String)
    (width height : Nat) (showBorder : Bool) (dom : Dom) :
    (dom.containers.contains containerId = false →
      embedGeoGebra containerId materialId width height showBorder dom = dom)
    ∧ (materialId = "" →
      embedGeoGebra containerId materialId width height showBorder dom = dom)
    ∧ (dom.containers.contains containerId = true → materialId ≠ "" →
      embedGeoGebra containerId materialId width height showBorder dom
        = setHTML dom containerId (embedHTML materialId width height showBorder)) := by
  refine ⟨?_, ?_, ?_⟩
  · intro h
    have h' : containerId ∉ dom.containers := by simpa using h
    simp [embedGeoGebra, h']
  · intro h
    subst h
    by_cases h' : containerId ∈ dom.containers <;> simp [embedGeoGebra, h']
  · intro h1 h2
    have h1' : containerId ∈ dom.containers := by simpa using h1
    simp [embedGeoGebra, h1', h2]

/-- Witness for C10 on concrete pages: missing container, empty materialId,
and a successful embed. -/
theorem embedGeoGebra_guards_and_template_witness :
    embedGeoGebra "c" "m1" 800 500 true (⟨[], fun _ => none, []⟩ : Dom)
        = (⟨[], fun _ => none, []⟩ : Dom)
    ∧ embedGeoGebra "c" "" 800 500 true (⟨["c"], fun _ => none, []⟩ : Dom)
        = (⟨["c"], fun _ => none, []⟩ : Dom)
    ∧ embedGeoGebra "c" "m1" 800 500 true (⟨["c"], fun _ => none, []⟩ : Dom)
        = setHTML (⟨["c"], fun _ => none, []⟩ : Dom) "c" (embedHTML "m1" 800 500 true) :=
  ⟨(embedGeoGebra_guards_and_template "c" "m1" 800 500 true
      ⟨[], fun _ => none, []⟩).1 (by decide),
    (embedGeoGebra_guards_and_template "c" "" 800 500 true
      ⟨["c"], fun _ => none, []⟩).2.1 rfl,
    (embedGeoGebra_guards_and_template "c" "m1" 800 500 true
      ⟨["c"], fun _ => none, []⟩).2.2 (by decide) (by decide)⟩

end GeoGebraLoader
